import Mathlib

/-!
# Verification of the SpriteFusion map-import pipeline

Shallow embedding of the `bevy_spritefusion` repository:

* `src/types.rs`  — the decoded map data model (`SpriteFusionMap`,
  `SpriteFusionLayer`, `SpriteFusionTile`), the `tile_id` accessor and the
  `TileAttributes` typed accessors;
* `src/loader.rs` — the asset loader (`load`: read bytes, then
  `serde_json::from_slice`);
* `src/plugin.rs` — the `spawn_spritefusion_maps` system that materializes a
  pending map request into layer/tile records once both assets are resolved.

Machine integers are modelled as `Nat`/`Int` with explicit `% 2^32`
(Rust release-profile wrapping semantics for `u32` arithmetic); fallible
steps return `Option`/`Except` (`none`/`error` models a panic or an error).
-/

namespace SpriteFusion

/-! ## u32 arithmetic helpers

Rust `u32` values are modelled as `Nat` with the invariant `< 2^32`;
arithmetic that can overflow is wrapped explicitly (release-profile
two-complement wrapping). -/

/-- `2^32`, the modulus of Rust `u32` arithmetic. -/
def W32 : Nat := 4294967296

/-- Wrapping `u32` subtraction `a - b` (models `u32::wrapping_sub`, the
release-profile behavior of `a - b` on `u32`). -/
def u32_sub (a b : Nat) : Nat := (a % W32 + W32 - b % W32) % W32

/-- The `tile.x as u32` cast from `i32` to `u32`: reinterpretation of the two-complement
bit pattern, i.e. the value modulo `2^32`. -/
def i32_as_u32 (v : Int) : Nat := (v % (4294967296 : Int)).toNat

/-! ## JSON values (model of `serde_json::Value`) -/

/-- Model of `serde_json::Number`.  The default parser stores an integer
literal that fits `u64` or `i64` as an integer, and everything else
(fractions, exponents, out-of-range integers, negative zero) as an `f64`;
the `float` constructor keeps the source literal as an opaque payload
instead of a binary floating-point value. -/
inductive JNumber : Type where
  | int (n : Int)
  | float (lit : String)

/-- Model of `serde_json::Value`.  Objects and maps are association lists in
insertion order. -/
inductive Json : Type where
  | null
  | bool (b : Bool)
  | num (n : JNumber)
  | str (s : String)
  | arr (elems : List Json)
  | obj (fields : List (String × Json))

/-- `serde_json::Value::as_str`: the contained string, for strings only. -/
def Json.as_str : Json → Option String
  | .str s => some s
  | _ => none

/-- `serde_json::Value::as_bool`: the contained boolean, for booleans only. -/
def Json.as_bool : Json → Option Bool
  | .bool b => some b
  | _ => none

/-- `serde_json::Value::as_i64`: the contained integer if the number is an
integer representable as an `i64`; `none` for floats and non-numbers. -/
def Json.as_i64 : Json → Option Int
  | .num (.int n) => if -9223372036854775808 ≤ n ∧ n < 9223372036854775808 then some n else none
  | _ => none

/-- `serde_json::Value::as_f64`: succeeds on any number (integers are
converted to `f64`).  The conversion target is binary floating point, which
is outside this embedding, so the accessor returns the number whose
conversion is produced; only presence/absence is relied upon. -/
def Json.as_f64 : Json → Option JNumber
  | .num n => some n
  | _ => none

/-! ## `src/types.rs`: the decoded data model -/

/-- `SpriteFusionTile` (src/types.rs): one tile of a layer.  `x`, `y` are
`i32`; `attributes` is `Option<HashMap<String, serde_json::Value>>` with
`#[serde(default)]`, modelled as an association list. -/
structure SpriteFusionTile : Type where
  id : String
  x : Int
  y : Int
  attributes : Option (List (String × Json))

/-- `SpriteFusionLayer` (src/types.rs): `collider` has `#[serde(default)]`. -/
structure SpriteFusionLayer : Type where
  name : String
  collider : Bool
  tiles : List SpriteFusionTile

/-- `SpriteFusionMap` (src/types.rs): the root decoded map.  The three size
fields are `u32` (invariant `< 2^32`, established by decoding). -/
structure SpriteFusionMap : Type where
  tile_size : Nat
  map_width : Nat
  map_height : Nat
  layers : List SpriteFusionLayer

/-! ## Rust `u32::from_str` (used by `SpriteFusionTile::tile_id`) -/

/-- Digit-accumulation loop of `u32::from_str`: each step is
`checked_mul 10` then `checked_add digit`; any non-digit character or
overflow past `u32::MAX` fails. -/
def parseDigitsU32 : List Char → Nat → Option Nat
  | [], acc => some acc
  | c :: cs, acc =>
    if c.isDigit then
      let acc2 := acc * 10 + (c.toNat - 48)
      if acc2 < W32 then parseDigitsU32 cs acc2 else none
    else none

/-- Rust `<u32 as FromStr>::from_str`: an optional leading `+` followed by a
nonempty run of ASCII digits whose value fits in `u32`; anything else
(empty string, sign alone, `-`, non-digits, overflow) fails. -/
def parseU32 (s : String) : Option Nat :=
  match s.data with
  | [] => none
  | c :: cs =>
    if c = '+' then
      match cs with
      | [] => none
      | _ => parseDigitsU32 cs 0
    else parseDigitsU32 (c :: cs) 0

/-- `SpriteFusionTile::tile_id` (src/types.rs): `self.id.parse().unwrap_or(0)`. -/
def SpriteFusionTile.tile_id (t : SpriteFusionTile) : Nat :=
  (parseU32 t.id).getD 0

/-! ## `TileAttributes` (src/types.rs) -/

/-- `TileAttributes(pub HashMap<String, serde_json::Value>)`, the map
modelled as an association list with at most one entry per key. -/
structure TileAttributes : Type where
  attrs : List (String × Json)

/-- `HashMap::get`: the value stored at `key`, if any. -/
def TileAttributes.get (a : TileAttributes) (key : String) : Option Json :=
  (a.attrs.find? (fun p => p.1 = key)).map (fun p => p.2)

/-- `TileAttributes::get_str`: `self.0.get(key).and_then(|v| v.as_str())`. -/
def TileAttributes.get_str (a : TileAttributes) (key : String) : Option String :=
  (a.get key).bind Json.as_str

/-- `TileAttributes::get_bool`: `self.0.get(key).and_then(|v| v.as_bool())`. -/
def TileAttributes.get_bool (a : TileAttributes) (key : String) : Option Bool :=
  (a.get key).bind Json.as_bool

/-- `TileAttributes::get_i64`: `self.0.get(key).and_then(|v| v.as_i64())`. -/
def TileAttributes.get_i64 (a : TileAttributes) (key : String) : Option Int :=
  (a.get key).bind Json.as_i64

/-- `TileAttributes::get_f64`: `self.0.get(key).and_then(|v| v.as_f64())`. -/
def TileAttributes.get_f64 (a : TileAttributes) (key : String) : Option JNumber :=
  (a.get key).bind Json.as_f64

/-- `TileAttributes::contains`: `self.0.contains_key(key)`. -/
def TileAttributes.contains (a : TileAttributes) (key : String) : Bool :=
  (a.get key).isSome

/-! ## JSON text parser (model of `serde_json`'s parser)

The input byte buffer is modelled as a list of characters (the format is
UTF-8 text).  A fuel parameter bounds recursion depth and loop length; the
top-level entry point supplies more fuel than any input of that length can
consume, mirroring that the reference parser is bounded only by its
recursion limit.  Lone `\u` surrogate escapes are mapped to the
replacement behavior of `Char.ofNat` rather than paired. -/

/-- The `\x7b` character (object opening brace). -/
def braceOpen : Char := Char.ofNat 123

/-- The `\x7d` character (object closing brace). -/
def braceClose : Char := Char.ofNat 125

/-- JSON insignificant whitespace. -/
def isJsonWs (c : Char) : Bool := c = ' ' ∨ c = '\n' ∨ c = '\r' ∨ c = '\t'

/-- Drop leading JSON whitespace. -/
def jskipWs : List Char → List Char
  | [] => []
  | c :: cs => if isJsonWs c then jskipWs cs else c :: cs

/-- Value of one hexadecimal digit. -/
def hexVal (c : Char) : Option Nat :=
  if '0' ≤ c ∧ c ≤ '9' then some (c.toNat - 48)
  else if 'a' ≤ c ∧ c ≤ 'f' then some (c.toNat - 87)
  else if 'A' ≤ c ∧ c ≤ 'F' then some (c.toNat - 55)
  else none

/-- Parse the body of a string literal (after the opening quote), with an
accumulator of already-read characters in reverse order. -/
def parseStringBody : List Char → List Char → Except String (String × List Char)
  | [], _ => .error "EOF while parsing a string"
  | '"' :: rest, acc => .ok (String.mk acc.reverse, rest)
  | '\\' :: rest, acc =>
    match rest with
    | [] => .error "EOF while parsing a string"
    | e :: rest2 =>
      if e = '"' ∨ e = '\\' ∨ e = '/' then parseStringBody rest2 (e :: acc)
      else if e = 'b' then parseStringBody rest2 (Char.ofNat 8 :: acc)
      else if e = 'f' then parseStringBody rest2 (Char.ofNat 12 :: acc)
      else if e = 'n' then parseStringBody rest2 ('\n' :: acc)
      else if e = 'r' then parseStringBody rest2 ('\r' :: acc)
      else if e = 't' then parseStringBody rest2 ('\t' :: acc)
      else if e = 'u' then
        match rest2 with
        | a :: b :: c :: d :: rest3 =>
          match hexVal a, hexVal b, hexVal c, hexVal d with
          | some ha, some hb, some hc, some hd =>
            parseStringBody rest3 (Char.ofNat (((ha * 16 + hb) * 16 + hc) * 16 + hd) :: acc)
          | _, _, _, _ => .error "invalid unicode escape"
        | _ => .error "EOF while parsing a string"
      else .error "invalid escape"
  | c :: rest, acc =>
    if c.toNat < 32 then .error "control character in string"
    else parseStringBody rest (c :: acc)

/-- Take the maximal leading run of ASCII digits. -/
def takeDigits : List Char → List Char × List Char
  | [] => ([], [])
  | c :: cs =>
    if c.isDigit then
      let p := takeDigits cs
      (c :: p.1, p.2)
    else ([], c :: cs)

/-- Value of a big-endian list of ASCII digits. -/
def digitsToNat (ds : List Char) : Nat :=
  ds.foldl (fun a c => a * 10 + (c.toNat - 48)) 0

/-- Reassemble the source literal of a number (payload of the `float`
constructor). -/
def mkNumLit (sign : Bool) (intDs fracDs expDs : List Char) : String :=
  String.mk ((if sign then ['-'] else []) ++ intDs ++ fracDs ++ expDs)

/-- Classify an integer literal the way the reference parser does: negative
zero and integers outside the `u64`/`i64` ranges become floats, everything
else an integer. -/
def finishIntLit (sign : Bool) (intDs fracDs : List Char) (rest : List Char) :
    Except String (Json × List Char) :=
  if fracDs.isEmpty then
    let n := digitsToNat intDs
    if sign then
      if n = 0 then .ok (Json.num (.float (mkNumLit sign intDs [] [])), rest)
      else if n ≤ 9223372036854775808 then .ok (Json.num (.int (-(n : Int))), rest)
      else .ok (Json.num (.float (mkNumLit sign intDs [] [])), rest)
    else
      if n < 18446744073709551616 then .ok (Json.num (.int (n : Int)), rest)
      else .ok (Json.num (.float (mkNumLit sign intDs [] [])), rest)
  else .ok (Json.num (.float (mkNumLit sign intDs fracDs [])), rest)

/-- Parse the optional exponent part and finish the number. -/
def parseExpPart (sign : Bool) (intDs fracDs : List Char) (input : List Char) :
    Except String (Json × List Char) :=
  match input with
  | c :: cs =>
    if c = 'e' ∨ c = 'E' then
      let p : List Char × List Char :=
        match cs with
        | '+' :: r => (['+'], r)
        | '-' :: r => (['-'], r)
        | r => ([], r)
      let q := takeDigits p.2
      if q.1.isEmpty then .error "invalid number"
      else .ok (Json.num (.float (mkNumLit sign intDs fracDs (c :: (p.1 ++ q.1)))), q.2)
    else finishIntLit sign intDs fracDs input
  | [] => finishIntLit sign intDs fracDs []

/-- Parse a number literal (sign, integer part with no leading zeros,
optional fraction, optional exponent). -/
def parseNumber (input : List Char) : Except String (Json × List Char) :=
  let p : Bool × List Char :=
    match input with
    | '-' :: cs => (true, cs)
    | cs => (false, cs)
  match p.2 with
  | c :: cs =>
    if c.isDigit then
      let q : List Char × List Char :=
        if c = '0' then (['0'], cs) else takeDigits p.2
      match q.2 with
      | '.' :: cs2 =>
        let r := takeDigits cs2
        if r.1.isEmpty then .error "invalid number"
        else parseExpPart p.1 q.1 ('.' :: r.1) r.2
      | rest1 => parseExpPart p.1 q.1 [] rest1
    else .error "invalid number"
  | [] => .error "EOF while parsing a number"

/-- Match a fixed keyword tail (`ull`, `rue`, `alse`). -/
def expectLit (lit : List Char) (input : List Char) (v : Json) :
    Except String (Json × List Char) :=
  if lit.isPrefixOf input then .ok (v, input.drop lit.length)
  else .error "expected ident"

mutual

/-- Parse one JSON value. -/
def parseValue : Nat → List Char → Except String (Json × List Char)
  | 0, _ => .error "recursion limit exceeded"
  | fuel + 1, input =>
    match jskipWs input with
    | [] => .error "EOF while parsing a value"
    | c :: cs =>
      if c = 'n' then expectLit ['u', 'l', 'l'] cs Json.null
      else if c = 't' then expectLit ['r', 'u', 'e'] cs (Json.bool true)
      else if c = 'f' then expectLit ['a', 'l', 's', 'e'] cs (Json.bool false)
      else if c = '"' then
        match parseStringBody cs [] with
        | .error e => .error e
        | .ok sp => .ok (Json.str sp.1, sp.2)
      else if c = '[' then
        match jskipWs cs with
        | ']' :: rest => .ok (Json.arr [], rest)
        | rest => parseElems fuel rest []
      else if c = braceOpen then
        match jskipWs cs with
        | [] => .error "EOF while parsing an object"
        | d :: rest =>
          if d = braceClose then .ok (Json.obj [], rest)
          else parseMembers fuel (d :: rest) []
      else if c = '-' ∨ c.isDigit then parseNumber (c :: cs)
      else .error "expected value"

/-- Parse the elements of a nonempty array, accumulator reversed. -/
def parseElems : Nat → List Char → List Json → Except String (Json × List Char)
  | 0, _, _ => .error "recursion limit exceeded"
  | fuel + 1, input, acc =>
    match parseValue fuel input with
    | .error e => .error e
    | .ok vr =>
      match jskipWs vr.2 with
      | ',' :: rest2 => parseElems fuel rest2 (vr.1 :: acc)
      | ']' :: rest2 => .ok (Json.arr (vr.1 :: acc).reverse, rest2)
      | _ => .error "expected comma or end of array"

/-- Parse the members of a nonempty object, accumulator reversed. -/
def parseMembers : Nat → List Char → List (String × Json) →
    Except String (Json × List Char)
  | 0, _, _ => .error "recursion limit exceeded"
  | fuel + 1, input, acc =>
    match jskipWs input with
    | '"' :: cs =>
      match parseStringBody cs [] with
      | .error e => .error e
      | .ok kp =>
        match jskipWs kp.2 with
        | ':' :: rest2 =>
          match parseValue fuel rest2 with
          | .error e => .error e
          | .ok vr =>
            match jskipWs vr.2 with
            | [] => .error "EOF while parsing an object"
            | d :: rest4 =>
              if d = ',' then parseMembers fuel rest4 ((kp.1, vr.1) :: acc)
              else if d = braceClose then
                .ok (Json.obj ((kp.1, vr.1) :: acc).reverse, rest4)
              else .error "expected comma or end of object"
        | _ => .error "expected colon"
    | _ => .error "key must be a string"

end

/-- Parse a complete JSON document: one value followed by only whitespace. -/
def parseJson (input : List Char) : Except String Json :=
  match parseValue (input.length + 2) input with
  | .error e => .error e
  | .ok vr =>
    match jskipWs vr.2 with
    | [] => .ok vr.1
    | _ => .error "trailing characters"

/-! ## Schema decoding (model of the derived `Deserialize` impls)

Derived struct deserialization: fields are consumed in input order, an
already-seen field is a duplicate-field error, unknown fields are ignored,
and a missing required field is an error.  `SpriteFusionMap` carries
`#[serde(rename_all = "camelCase")]`, so its keys are `tileSize`,
`mapWidth`, `mapHeight`, `layers`; the other two structs use their Rust
field names. -/

/-- Deserialize a `u32`: an integer number in `[0, 2^32)`. -/
def decodeU32 (j : Json) : Except String Nat :=
  match j with
  | .num (.int n) =>
    if 0 ≤ n ∧ n < 4294967296 then .ok n.toNat
    else .error "invalid value: out of range for u32"
  | _ => .error "invalid type: expected u32"

/-- Deserialize an `i32`: an integer number in `[-2^31, 2^31)`. -/
def decodeI32 (j : Json) : Except String Int :=
  match j with
  | .num (.int n) =>
    if -2147483648 ≤ n ∧ n < 2147483648 then .ok n
    else .error "invalid value: out of range for i32"
  | _ => .error "invalid type: expected i32"

/-- Deserialize a `String`. -/
def decodeString : Json → Except String String
  | .str s => .ok s
  | _ => .error "invalid type: expected a string"

/-- Deserialize a `bool`. -/
def decodeBool : Json → Except String Bool
  | .bool b => .ok b
  | _ => .error "invalid type: expected a boolean"

/-- Deserialize each element of a sequence. -/
def decodeListWith (f : Json → Except String α) : List Json → Except String (List α)
  | [] => .ok []
  | j :: js =>
    match f j with
    | .error e => .error e
    | .ok a =>
      match decodeListWith f js with
      | .error e => .error e
      | .ok rest => .ok (a :: rest)

/-- `HashMap` insertion: a later binding for the same key replaces the
earlier one. -/
def insertAttr (m : List (String × Json)) (k : String) (v : Json) :
    List (String × Json) :=
  if m.any (fun p => p.1 = k) then m.map (fun p => if p.1 = k then (k, v) else p)
  else m ++ [(k, v)]

/-- Deserialize a `HashMap<String, serde_json::Value>`. -/
def decodeAttrMap : Json → Except String (List (String × Json))
  | .obj fields => .ok (fields.foldl (fun m kv => insertAttr m kv.1 kv.2) [])
  | _ => .error "invalid type: expected a map"

/-- Deserialize an `Option<HashMap<..>>`: `null` is `None`, anything else
must be a map. -/
def decodeOptAttrs : Json → Except String (Option (List (String × Json)))
  | .null => .ok none
  | j => (decodeAttrMap j).map some

/-- Field loop of the derived `SpriteFusionTile` deserializer. -/
def decodeTileFields : List (String × Json) → Option String → Option Int →
    Option Int → Option (Option (List (String × Json))) →
    Except String SpriteFusionTile
  | [], id?, x?, y?, attrs? =>
    match id?, x?, y? with
    | some i, some x, some y => .ok ⟨i, x, y, attrs?.getD none⟩
    | _, _, _ => .error "missing field"
  | (k, v) :: rest, id?, x?, y?, attrs? =>
    if k = "id" then
      if id?.isSome then .error "duplicate field id"
      else
        match decodeString v with
        | .error e => .error e
        | .ok s => decodeTileFields rest (some s) x? y? attrs?
    else if k = "x" then
      if x?.isSome then .error "duplicate field x"
      else
        match decodeI32 v with
        | .error e => .error e
        | .ok n => decodeTileFields rest id? (some n) y? attrs?
    else if k = "y" then
      if y?.isSome then .error "duplicate field y"
      else
        match decodeI32 v with
        | .error e => .error e
        | .ok n => decodeTileFields rest id? x? (some n) attrs?
    else if k = "attributes" then
      if attrs?.isSome then .error "duplicate field attributes"
      else
        match decodeOptAttrs v with
        | .error e => .error e
        | .ok a => decodeTileFields rest id? x? y? (some a)
    else decodeTileFields rest id? x? y? attrs?

/-- Deserialize a `SpriteFusionTile`. -/
def decodeTile : Json → Except String SpriteFusionTile
  | .obj fields => decodeTileFields fields none none none none
  | _ => .error "invalid type: expected struct SpriteFusionTile"

/-- Deserialize a `Vec<SpriteFusionTile>`. -/
def decodeTiles : Json → Except String (List SpriteFusionTile)
  | .arr js => decodeListWith decodeTile js
  | _ => .error "invalid type: expected a sequence"

/-- Field loop of the derived `SpriteFusionLayer` deserializer; a missing
`collider` field defaults to `false`. -/
def decodeLayerFields : List (String × Json) → Option String → Option Bool →
    Option (List SpriteFusionTile) → Except String SpriteFusionLayer
  | [], name?, collider?, tiles? =>
    match name?, tiles? with
    | some n, some ts => .ok ⟨n, collider?.getD false, ts⟩
    | _, _ => .error "missing field"
  | (k, v) :: rest, name?, collider?, tiles? =>
    if k = "name" then
      if name?.isSome then .error "duplicate field name"
      else
        match decodeString v with
        | .error e => .error e
        | .ok s => decodeLayerFields rest (some s) collider? tiles?
    else if k = "collider" then
      if collider?.isSome then .error "duplicate field collider"
      else
        match decodeBool v with
        | .error e => .error e
        | .ok b => decodeLayerFields rest name? (some b) tiles?
    else if k = "tiles" then
      if tiles?.isSome then .error "duplicate field tiles"
      else
        match decodeTiles v with
        | .error e => .error e
        | .ok ts => decodeLayerFields rest name? collider? (some ts)
    else decodeLayerFields rest name? collider? tiles?

/-- Deserialize a `SpriteFusionLayer`. -/
def decodeLayer : Json → Except String SpriteFusionLayer
  | .obj fields => decodeLayerFields fields none none none
  | _ => .error "invalid type: expected struct SpriteFusionLayer"

/-- Deserialize a `Vec<SpriteFusionLayer>`. -/
def decodeLayers : Json → Except String (List SpriteFusionLayer)
  | .arr js => decodeListWith decodeLayer js
  | _ => .error "invalid type: expected a sequence"

/-- Field loop of the derived `SpriteFusionMap` deserializer (camelCase
keys). -/
def decodeMapFields : List (String × Json) → Option Nat → Option Nat →
    Option Nat → Option (List SpriteFusionLayer) → Except String SpriteFusionMap
  | [], ts?, w?, h?, ls? =>
    match ts?, w?, h?, ls? with
    | some ts, some w, some h, some ls => .ok ⟨ts, w, h, ls⟩
    | _, _, _, _ => .error "missing field"
  | (k, v) :: rest, ts?, w?, h?, ls? =>
    if k = "tileSize" then
      if ts?.isSome then .error "duplicate field tileSize"
      else
        match decodeU32 v with
        | .error e => .error e
        | .ok n => decodeMapFields rest (some n) w? h? ls?
    else if k = "mapWidth" then
      if w?.isSome then .error "duplicate field mapWidth"
      else
        match decodeU32 v with
        | .error e => .error e
        | .ok n => decodeMapFields rest ts? (some n) h? ls?
    else if k = "mapHeight" then
      if h?.isSome then .error "duplicate field mapHeight"
      else
        match decodeU32 v with
        | .error e => .error e
        | .ok n => decodeMapFields rest ts? w? (some n) ls?
    else if k = "layers" then
      if ls?.isSome then .error "duplicate field layers"
      else
        match decodeLayers v with
        | .error e => .error e
        | .ok ls => decodeMapFields rest ts? w? h? (some ls)
    else decodeMapFields rest ts? w? h? ls?

/-- Deserialize a `SpriteFusionMap`. -/
def decodeMap : Json → Except String SpriteFusionMap
  | .obj fields => decodeMapFields fields none none none none
  | _ => .error "invalid type: expected struct SpriteFusionMap"

/-! ## `src/loader.rs`: the asset loader -/

/-- `SpriteFusionMapLoaderError` (src/loader.rs): a read failure or a JSON
parse/schema failure, each carrying the underlying diagnostic. -/
inductive SpriteFusionMapLoaderError : Type where
  | ioError (e : String)
  | jsonError (e : String)

/-- `serde_json::from_slice::<SpriteFusionMap>`: parse the document, then
deserialize it against the schema. -/
def from_slice (bytes : List Char) : Except String SpriteFusionMap :=
  match parseJson bytes with
  | .error e => .error e
  | .ok j => decodeMap j

/-- `SpriteFusionMapLoader::load` (src/loader.rs): read the whole byte
source (its failure is the `Io` error), then `serde_json::from_slice` (its
failure is the `Json` error).  The read result is the input. -/
def load (read : Except String (List Char)) :
    Except SpriteFusionMapLoaderError SpriteFusionMap :=
  match read with
  | .error e => .error (.ioError e)
  | .ok bytes =>
    match from_slice bytes with
    | .error e => .error (.jsonError e)
    | .ok m => .ok m

/-! ## `src/plugin.rs`: the materializer

`spawn_spritefusion_maps` runs once per scheduling tick over each entity
still carrying the `PendingSpriteFusionMap` marker.  Entities are modelled
as sequentially allocated `Nat` identifiers; a `none` result models a
panic aborting the pass (nothing is applied). -/

/-- `bevy_ecs_tilemap::TilePos`: an unsigned (`u32`) grid position. -/
structure TilePos : Type where
  x : Nat
  y : Nat

/-- The tile position computed at src/plugin.rs:117-120:
`x: tile.x as u32, y: (map.map_height - 1) - tile.y as u32`, all in
wrapping `u32` arithmetic. -/
def tilePos (m : SpriteFusionMap) (t : SpriteFusionTile) : TilePos :=
  { x := i32_as_u32 t.x
    y := u32_sub (u32_sub m.map_height 1) (i32_as_u32 t.y) }

/-- `bevy_ecs_tilemap::TileStorage`: a vector of optional tile entities
pre-sized to `(width * height) as usize` (the product taken in `u32`),
indexed by `y * width + x`.  The stored payload is the tile entity id. -/
structure TileStorage : Type where
  width : Nat
  height : Nat
  tiles : List (Option Nat)

/-- `TileStorage::empty(map_size)`. -/
def TileStorage.empty (w h : Nat) : TileStorage :=
  { width := w, height := h, tiles := List.replicate (w * h % W32) none }

/-- `TileStorage::set(&tile_pos, tile_entity)`: writes at index
`(pos.y * width + pos.x) as usize` (computed in `u32`); an index outside
the pre-sized vector is an out-of-bounds write, i.e. a panic, modelled as
`none`. -/
def TileStorage.set (st : TileStorage) (pos : TilePos) (entity : Nat) :
    Option TileStorage :=
  if (pos.y * st.width + pos.x) % W32 < st.tiles.length then
    some { st with tiles := st.tiles.set ((pos.y * st.width + pos.x) % W32) (some entity) }
  else none

/-- The components of one spawned tile entity: the `TileBundle` fields the
system fills in (position, owning tilemap, texture index), the optional
`Collider` marker, and the optional `TileAttributes` payload (inserted only
when present and nonempty). -/
structure TileRecord : Type where
  position : TilePos
  tilemap_id : Nat
  texture_index : Nat
  colliderTag : Bool
  attributes : Option (List (String × Json))

/-- The tile record spawned for `tile` at src/plugin.rs:125-142. -/
def mkTileRecord (m : SpriteFusionMap) (layerEntity : Nat) (collider : Bool)
    (t : SpriteFusionTile) : TileRecord :=
  { position := tilePos m t
    tilemap_id := layerEntity
    texture_index := t.tile_id
    colliderTag := collider
    attributes :=
      match t.attributes with
      | some attrs => if attrs.isEmpty then none else some attrs
      | none => none }

/-- `SpriteFusionLayerMarker` (src/types.rs). -/
structure SpriteFusionLayerMarker : Type where
  name : String
  index : Nat
  collider : Bool

/-- Everything spawned for one layer: the layer container entity, its
marker, its filled tile storage, and the tile records in source order. -/
structure LayerSpawn : Type where
  entity : Nat
  marker : SpriteFusionLayerMarker
  storage : TileStorage
  tiles : List TileRecord

/-- The per-tile loop at src/plugin.rs:115-146: spawn the tile record
(entity ids are allocated sequentially from `nextId`), then insert it into
the storage at its resolved position. -/
def spawnTiles (m : SpriteFusionMap) (layerEntity : Nat) (collider : Bool) :
    List SpriteFusionTile → TileStorage → Nat →
    Option (TileStorage × List TileRecord × Nat)
  | [], st, nextId => some (st, [], nextId)
  | t :: ts, st, nextId =>
    let r := mkTileRecord m layerEntity collider t
    match st.set r.position nextId with
    | none => none
    | some st2 =>
      match spawnTiles m layerEntity collider ts st2 (nextId + 1) with
      | none => none
      | some p => some (p.1, r :: p.2.1, p.2.2)

/-- The per-layer body at src/plugin.rs:105-187: allocate the tilemap
entity, spawn its tiles, and attach the layer marker. -/
def spawnLayer (m : SpriteFusionMap) (layerIndex : Nat)
    (layer : SpriteFusionLayer) (nextId : Nat) : Option (LayerSpawn × Nat) :=
  let layerEntity := nextId
  match spawnTiles m layerEntity layer.collider layer.tiles
      (TileStorage.empty m.map_width m.map_height) (nextId + 1) with
  | none => none
  | some p =>
    some ({ entity := layerEntity
            marker := { name := layer.name, index := layerIndex
                        collider := layer.collider }
            storage := p.1
            tiles := p.2.1 }, p.2.2)

/-- The layer loop: process layers in source order with their indices. -/
def spawnAllLayers (m : SpriteFusionMap) :
    List SpriteFusionLayer → Nat → Nat → Option (List LayerSpawn × Nat)
  | [], _, nextId => some ([], nextId)
  | layer :: rest, idx, nextId =>
    match spawnLayer m idx layer nextId with
    | none => none
    | some p =>
      match spawnAllLayers m rest (idx + 1) p.2 with
      | none => none
      | some q => some (p.1 :: q.1, q.2)

/-- Materialize a whole map: all layers in order, entity ids starting at
`nextId`. -/
def spawnMap (m : SpriteFusionMap) (nextId : Nat) :
    Option (List LayerSpawn × Nat) :=
  spawnAllLayers m m.layers 0 nextId

/-- The root map-request entity spawned from `SpriteFusionBundle`
(src/plugin.rs:55-73): the pending marker, the optional materialized
marker, and the untouched components (transform, the two asset handles,
visibility), with the child links.  The untouched components are kept
polymorphic; the system never inspects them. -/
structure RootEntity (T HM HT V : Type) : Type where
  pending : Bool
  marker : Option SpriteFusionMap
  transform : T
  mapHandle : HM
  tilesetHandle : HT
  visibility : V
  children : List Nat

/-- One scheduling tick of `spawn_spritefusion_maps` (src/plugin.rs:81-201)
for one request entity.  `mapAsset` is `map_assets.get(&**map_handle)` and
`imageLoaded` is whether `image_assets.get(&**tileset_handle)` is `Some`;
an entity without the pending marker is not in the query.  The result is
the updated root entity and the list of layer spawns emitted this tick
(`none` models a panic during the pass). -/
def spawn_spritefusion_maps (root : RootEntity T HM HT V)
    (mapAsset : Option SpriteFusionMap) (imageLoaded : Bool) (nextId : Nat) :
    Option (RootEntity T HM HT V × List LayerSpawn) :=
  if root.pending = false then some (root, [])
  else
    match mapAsset with
    | none => some (root, [])
    | some m =>
      if imageLoaded = false then some (root, [])
      else
        match spawnMap m nextId with
        | none => none
        | some p =>
          some ({ root with
                    pending := false
                    marker := some m
                    children := root.children ++ p.1.map (fun ls => ls.entity) },
                p.1)

/-! ## Well-formedness -/

/-- A tile whose coordinates lie in `[0, width) × [0, height)`. -/
def InRange (m : SpriteFusionMap) (t : SpriteFusionTile) : Prop :=
  0 ≤ t.x ∧ t.x < (m.map_width : Int) ∧ 0 ≤ t.y ∧ t.y < (m.map_height : Int)

instance (m : SpriteFusionMap) (t : SpriteFusionTile) : Decidable (InRange m t) := by
  unfold InRange; infer_instance

/-- A decoded map whose storage fits `u32` indexing and whose tiles are all
in range. -/
def WfMap (m : SpriteFusionMap) : Prop :=
  m.map_width * m.map_height < W32 ∧
  ∀ layer ∈ m.layers, ∀ t ∈ layer.tiles, InRange m t

instance (m : SpriteFusionMap) : Decidable (WfMap m) := by
  unfold WfMap; infer_instance

/-! ## Arithmetic lemmas about the u32 model -/

lemma i32_as_u32_int (v : Int) : (i32_as_u32 v : Int) = v % 4294967296 := by
  unfold i32_as_u32
  exact Int.toNat_of_nonneg (Int.emod_nonneg v (by norm_num))

lemma u32_sub_int (a b : Nat) :
    (u32_sub a b : Int) = ((a : Int) - b) % 4294967296 := by
  unfold u32_sub W32
  omega

/-! ## Claim C1: the resolved tile position -/

/-- C1.  For every decoded map (`map_height < 2^32`, as every `u32` is) and
every tile, the materializer resolves the position as
`x: tile.x as u32, y: (map.map_height - 1) - tile.y as u32`: in `u32`
arithmetic the resolved column is `tile.x` and the resolved row is
`(map.map_height - 1) - tile.y` (first two conjuncts, stated modulo
`2^32`, the arithmetic of the `u32`-valued `TilePos`); for coordinates in
range these are exactly `tile.x` and `(height - 1) - tile.y` (last two
conjuncts). -/
theorem spec_C1 (m : SpriteFusionMap) (t : SpriteFusionTile)
    (hh : m.map_height < 4294967296) :
    ((tilePos m t).x : Int) = t.x % 4294967296 ∧
    ((tilePos m t).y : Int) = ((m.map_height : Int) - 1 - t.y) % 4294967296 ∧
    (0 ≤ t.x → t.x < 4294967296 → ((tilePos m t).x : Int) = t.x) ∧
    (1 ≤ m.map_height → 0 ≤ t.y → t.y < (m.map_height : Int) →
      ((tilePos m t).y : Int) = (m.map_height : Int) - 1 - t.y) := by
  have hx := i32_as_u32_int t.x
  have hy := i32_as_u32_int t.y
  have h1 := u32_sub_int m.map_height 1
  have h2 := u32_sub_int (u32_sub m.map_height 1) (i32_as_u32 t.y)
  refine ⟨?_, ?_, ?_, ?_⟩
  · simpa [tilePos] using hx
  · simp only [tilePos]
    omega
  · intro h3 h4
    simp only [tilePos]
    omega
  · intro h3 h4 h5
    simp only [tilePos]
    omega

/-- Witness for C1 at the claim's concrete inputs: `height = 10` sends
source `y = 0` to row `9` and source `y = 9` to row `0` (with `x`
unchanged). -/
theorem spec_C1_witness :
    ((10 : Nat) < 4294967296 ∧
      ((tilePos ⟨16, 10, 10, []⟩ ⟨"0", 3, 0, none⟩).y : Int) = 9) ∧
    ((tilePos ⟨16, 10, 10, []⟩ ⟨"0", 3, 9, none⟩).y : Int) = 0 ∧
    ((tilePos ⟨16, 10, 10, []⟩ ⟨"0", 3, 9, none⟩).x : Int) = 3 := by
  refine ⟨⟨by norm_num, ?_⟩, ?_, ?_⟩
  · have h := (spec_C1 ⟨16, 10, 10, []⟩ ⟨"0", 3, 0, none⟩ (by norm_num)).2.2.2
      (by norm_num) (by norm_num) (by norm_num)
    simpa using h
  · have h := (spec_C1 ⟨16, 10, 10, []⟩ ⟨"0", 3, 9, none⟩ (by norm_num)).2.2.2
      (by norm_num) (by norm_num) (by norm_num)
    simpa using h
  · have h := (spec_C1 ⟨16, 10, 10, []⟩ ⟨"0", 3, 9, none⟩ (by norm_num)).2.2.1
      (by norm_num) (by norm_num)
    simpa using h

/-! ## Claim C3: the texture index from the tile id string

`decimalRepr n` is the canonical decimal representation of `n`: the digits
`Nat.digits 10 n` in big-endian order as ASCII characters (and `"0"` for
zero); `decimalRepr_data` ties the executable fuel-based definition to
`Nat.digits`. -/

/-- Big-endian decimal digit characters of `n`, by fuel. -/
def decimalDigitsAux : Nat → Nat → List Char
  | 0, _ => []
  | fuel + 1, n =>
    if n = 0 then []
    else decimalDigitsAux fuel (n / 10) ++ [Char.ofNat (48 + n % 10)]

/-- The decimal representation of an unsigned integer. -/
def decimalRepr (n : Nat) : String :=
  if n = 0 then "0" else String.mk (decimalDigitsAux (n + 1) n)

lemma decimalDigitsAux_eq_digits :
    ∀ fuel n, n < fuel →
      decimalDigitsAux fuel n =
        ((Nat.digits 10 n).reverse.map fun d => Char.ofNat (48 + d)) := by
  intro fuel
  induction fuel with
  | zero => omega
  | succ f ih =>
    intro n hn
    by_cases h0 : n = 0
    · subst h0; simp [decimalDigitsAux]
    · have hdiv : n / 10 < f := by
        have := Nat.div_lt_self (Nat.pos_of_ne_zero h0) (by norm_num : 1 < 10)
        omega
      rw [show decimalDigitsAux (f + 1) n =
            decimalDigitsAux f (n / 10) ++ [Char.ofNat (48 + n % 10)] by
          simp [decimalDigitsAux, h0]]
      rw [ih (n / 10) hdiv,
        Nat.digits_def' (by norm_num : 1 < 10) (Nat.pos_of_ne_zero h0)]
      simp

/-- For `d < 10` the character of `d` is an ASCII digit. -/
lemma digitChar_isDigit (d : Nat) (h : d < 10) :
    (Char.ofNat (48 + d)).isDigit = true := by
  interval_cases d <;> decide

/-- For `d < 10` the character of `d` decodes back to `d`. -/
lemma digitChar_toNat (d : Nat) (h : d < 10) :
    (Char.ofNat (48 + d)).toNat - 48 = d := by
  interval_cases d <;> decide

lemma digitChar_ne_plus (d : Nat) (h : d < 10) : Char.ofNat (48 + d) ≠ '+' := by
  interval_cases d <;> decide

/-- Correctness of the digit-accumulation loop of `u32::from_str` on a
big-endian digit list whose value (on top of the accumulator) stays below
`2^32`. -/
lemma parseDigitsU32_be :
    ∀ (ds : List Nat) (acc : Nat), (∀ d ∈ ds, d < 10) →
      acc * 10 ^ ds.length + Nat.ofDigits 10 ds.reverse < W32 →
      parseDigitsU32 (ds.map fun d => Char.ofNat (48 + d)) acc =
        some (acc * 10 ^ ds.length + Nat.ofDigits 10 ds.reverse) := by
  intro ds
  induction ds with
  | nil => intro acc _ _; simp [parseDigitsU32, Nat.ofDigits]
  | cons d ds ih =>
    intro acc hd hlt
    have hd0 : d < 10 := hd d (by simp)
    have hrw : Nat.ofDigits 10 (d :: ds).reverse =
        Nat.ofDigits 10 ds.reverse + 10 ^ ds.length * d := by
      rw [List.reverse_cons, Nat.ofDigits_append]
      simp [Nat.ofDigits]
    have hval : (acc * 10 + d) * 10 ^ ds.length + Nat.ofDigits 10 ds.reverse =
        acc * 10 ^ (d :: ds).length + Nat.ofDigits 10 (d :: ds).reverse := by
      rw [hrw]
      simp [List.length_cons, pow_succ]
      ring
    have hacc2 : acc * 10 + d < W32 := by
      have h1 : acc * 10 + d ≤ (acc * 10 + d) * 10 ^ ds.length :=
        Nat.le_mul_of_pos_right _ (Nat.pos_pow_of_pos _ (by norm_num))
      omega
    simp only [List.map_cons, parseDigitsU32, digitChar_isDigit d hd0,
      digitChar_toNat d hd0, if_true, hacc2, if_pos]
    rw [ih (acc * 10 + d) (fun x hx => hd x (by simp [hx])) (by omega)]
    rw [hval]

/-- `u32::from_str` parses the decimal representation of any `n < 2^32`
back to `n`. -/
lemma parseU32_decimalRepr (n : Nat) (hn : n < W32) :
    parseU32 (decimalRepr n) = some n := by
  by_cases h0 : n = 0
  · subst h0; rfl
  · have hne := (Nat.digits_ne_nil_iff_ne_zero (b := 10)).mpr h0
    have hds : ∀ d ∈ (Nat.digits 10 n).reverse, d < 10 := by
      intro d hdm
      exact Nat.digits_lt_base (by norm_num) (List.mem_reverse.mp hdm)
    have hval : Nat.ofDigits 10 (Nat.digits 10 n).reverse.reverse = n := by
      rw [List.reverse_reverse]
      exact_mod_cast Nat.ofDigits_digits 10 n
    have hmain := parseDigitsU32_be (Nat.digits 10 n).reverse 0 hds
      (by rw [hval]; simpa using hn)
    rw [hval] at hmain
    simp only [Nat.zero_mul, Nat.zero_add] at hmain
    have hdata : (decimalRepr n).data =
        ((Nat.digits 10 n).reverse.map fun d => Char.ofNat (48 + d)) := by
      unfold decimalRepr
      rw [if_neg h0]
      exact congrArg String.data
        (congrArg String.mk (decimalDigitsAux_eq_digits (n + 1) n (by omega)))
    obtain ⟨d0, ds0, hcons⟩ : ∃ d0 ds0, (Nat.digits 10 n).reverse = d0 :: ds0 := by
      cases hrev : (Nat.digits 10 n).reverse with
      | nil => exact absurd (by simpa using congrArg List.reverse hrev) hne
      | cons a l => exact ⟨a, l, rfl⟩
    unfold parseU32
    rw [hdata, hcons]
    simp only [List.map_cons]
    rw [if_neg (digitChar_ne_plus d0 (hds d0 (by simp [hcons])))]
    rw [hcons, List.map_cons] at hmain
    exact hmain

/-- Counterexample to C3 as stated: `"4294967296"` is the decimal
representation of the unsigned integer `4294967296 = 2^32`, but
`id.parse::<u32>()` overflows, so `tile_id` falls back to `0`, not to the
integer itself. -/
theorem spec_C3_counterexample :
    decimalRepr 4294967296 = "4294967296" ∧
    (SpriteFusionTile.mk "4294967296" 0 0 none).tile_id = 0 ∧
    (SpriteFusionTile.mk "4294967296" 0 0 none).tile_id ≠ 4294967296 :=
  ⟨rfl, rfl, by decide⟩

/-- C3, amended.  Computing the texture index never fails: if the tile id
is the decimal representation of an unsigned integer below `2^32` the
index is that integer, and any id that `u32::from_str` rejects (empty,
signs other than a valid `+`-prefixed number, non-digits, negatives,
values `≥ 2^32`) yields index `0`. -/
theorem spec_C3 (t : SpriteFusionTile) :
    (∀ n : Nat, n < 4294967296 → t.id = decimalRepr n → t.tile_id = n) ∧
    (parseU32 t.id = none → t.tile_id = 0) := by
  constructor
  · intro n hn hid
    unfold SpriteFusionTile.tile_id
    rw [hid, parseU32_decimalRepr n hn]
    rfl
  · intro h
    unfold SpriteFusionTile.tile_id
    rw [h]
    rfl

/-- Witness for C3 at the claim's concrete inputs: id `"7"` gives index
`7`, id `"abc"` gives `0`, id `""` gives `0`. -/
theorem spec_C3_witness :
    (SpriteFusionTile.mk "7" 0 0 none).tile_id = 7 ∧
    (SpriteFusionTile.mk "abc" 0 0 none).tile_id = 0 ∧
    (SpriteFusionTile.mk "" 0 0 none).tile_id = 0 := by
  refine ⟨?_, ?_, ?_⟩
  · exact (spec_C3 (SpriteFusionTile.mk "7" 0 0 none)).1 7 (by norm_num) rfl
  · exact (spec_C3 (SpriteFusionTile.mk "abc" 0 0 none)).2 rfl
  · exact (spec_C3 (SpriteFusionTile.mk "" 0 0 none)).2 rfl

/-! ## Claim C5: the typed attribute accessors -/

/-- The attribute payload of the claim's example,
`\x7b"name": "gem", "value": 10, "isCollectible": true\x7d`. -/
def gemAttrs : TileAttributes :=
  ⟨[("name", .str "gem"), ("value", .num (.int 10)), ("isCollectible", .bool true)]⟩

/-- Counterexample to C5 as stated: in the example payload the value
stored under `"value"` is the integer `10` — not a floating-point value —
yet the float accessor (`get_f64`, backed by `serde_json`'s `as_f64`,
which converts any number) reports it as present, so an accessor can
return a present value although the stored value does not have the
accessed type. -/
theorem spec_C5_counterexample :
    gemAttrs.get "value" = some (.num (.int 10)) ∧
    gemAttrs.get_f64 "value" = some (.int 10) ∧
    gemAttrs.get_i64 "value" = some 10 :=
  ⟨rfl, rfl, rfl⟩

/-- C5, amended.  The accessors never panic (they are total) and behave as
follows: `get_str` and `get_bool` return a present value exactly when the
key is present with exactly that type; `get_i64` exactly when the key
holds an integer number within the signed 64-bit range; `get_f64` exactly
when the key holds any number, integer or floating; on a missing key every
accessor returns absent and `contains` is `false`; `contains` reflects key
presence. -/
theorem spec_C5 (a : TileAttributes) (key : String) :
    (∀ s, a.get_str key = some s ↔ a.get key = some (.str s)) ∧
    (∀ b, a.get_bool key = some b ↔ a.get key = some (.bool b)) ∧
    (∀ n, a.get_i64 key = some n ↔
      a.get key = some (.num (.int n)) ∧
        -9223372036854775808 ≤ n ∧ n < 9223372036854775808) ∧
    (∀ jn, a.get_f64 key = some jn ↔ a.get key = some (.num jn)) ∧
    (a.get key = none →
      a.get_str key = none ∧ a.get_bool key = none ∧ a.get_i64 key = none ∧
        a.get_f64 key = none ∧ a.contains key = false) ∧
    (a.contains key = true ↔ (a.get key).isSome) := by
  refine ⟨?_, ?_, ?_, ?_, ?_, ?_⟩
  · intro s
    cases h : a.get key with
    | none => simp [TileAttributes.get_str, h]
    | some j =>
      cases j <;> simp [TileAttributes.get_str, h, Json.as_str]
  · intro b
    cases h : a.get key with
    | none => simp [TileAttributes.get_bool, h]
    | some j =>
      cases j <;> simp [TileAttributes.get_bool, h, Json.as_bool]
  · intro n
    cases h : a.get key with
    | none => simp [TileAttributes.get_i64, h]
    | some j =>
      cases j with
      | num jn =>
        cases jn with
        | int n0 =>
          simp only [TileAttributes.get_i64, h, Option.some_bind, Json.as_i64]
          constructor
          · intro hsome
            split at hsome
            · next hrange =>
              obtain rfl : n0 = n := by simpa using hsome
              exact ⟨rfl, hrange.1, hrange.2⟩
            · exact absurd hsome (by simp)
          · rintro ⟨hj, h1, h2⟩
            obtain rfl : n0 = n := by simpa using hj
            rw [if_pos ⟨h1, h2⟩]
        | float lit => simp [TileAttributes.get_i64, h, Json.as_i64]
      | null => simp [TileAttributes.get_i64, h, Json.as_i64]
      | bool b => simp [TileAttributes.get_i64, h, Json.as_i64]
      | str s => simp [TileAttributes.get_i64, h, Json.as_i64]
      | arr l => simp [TileAttributes.get_i64, h, Json.as_i64]
      | obj l => simp [TileAttributes.get_i64, h, Json.as_i64]
  · intro jn
    cases h : a.get key with
    | none => simp [TileAttributes.get_f64, h]
    | some j =>
      cases j <;> simp [TileAttributes.get_f64, h, Json.as_f64]
  · intro h
    simp [TileAttributes.get_str, TileAttributes.get_bool, TileAttributes.get_i64,
      TileAttributes.get_f64, TileAttributes.contains, h]
  · simp [TileAttributes.contains]

/-- Witness for C5 at the claim's example payload: `get_str "name"`,
`get_i64 "value"` and `get_bool "isCollectible"` are present with the
stored values, `get_str "value"` is absent (type mismatch), and
`contains "missing"` is `false`. -/
theorem spec_C5_witness :
    gemAttrs.get_str "name" = some "gem" ∧
    gemAttrs.get_i64 "value" = some 10 ∧
    gemAttrs.get_bool "isCollectible" = some true ∧
    gemAttrs.get_str "value" = none ∧
    gemAttrs.get "missing" = none ∧ gemAttrs.get_str "missing" = none ∧
    gemAttrs.contains "missing" = false := by
  refine ⟨?_, ?_, ?_, rfl, rfl, ?_, ?_⟩
  · exact ((spec_C5 gemAttrs "name").1 "gem").mpr rfl
  · exact ((spec_C5 gemAttrs "value").2.2.1 10).mpr ⟨rfl, by norm_num, by norm_num⟩
  · exact ((spec_C5 gemAttrs "isCollectible").2.1 true).mpr rfl
  · exact ((spec_C5 gemAttrs "missing").2.2.2.2.1 rfl).1
  · exact ((spec_C5 gemAttrs "missing").2.2.2.2.1 rfl).2.2.2.2

/-! ## Claim C6: decoding errors and purity of the loader -/

/-- C6.  `load` returns an error exactly when the byte source cannot be
read (the `Io` case, wrapping the read diagnostic) or when
`serde_json::from_slice` rejects the content (the `Json` case, wrapping
the parser diagnostic); whenever it returns a map, the read succeeded and
the whole decode succeeded on the read bytes — no partially populated map
exists on any error path.  Decoding is a function of the input alone
(`load`, `from_slice` are pure functions), so success is determined by the
bytes. -/
theorem spec_C6 (read : Except String (List Char)) :
    (∀ e, read = .error e → load read = .error (.ioError e)) ∧
    (∀ bytes e, read = .ok bytes → from_slice bytes = .error e →
      load read = .error (.jsonError e)) ∧
    (∀ bytes m, read = .ok bytes → from_slice bytes = .ok m →
      load read = .ok m) ∧
    (∀ m, load read = .ok m →
      ∃ bytes, read = .ok bytes ∧ from_slice bytes = .ok m) := by
  refine ⟨?_, ?_, ?_, ?_⟩
  · rintro e rfl; rfl
  · rintro bytes e rfl h
    simp [load, h]
  · rintro bytes m rfl h
    simp [load, h]
  · intro m h
    cases read with
    | error e => exact absurd h (by simp [load])
    | ok bytes =>
      refine ⟨bytes, rfl, ?_⟩
      cases hf : from_slice bytes with
      | error e => rw [load, hf] at h; exact absurd h (by simp)
      | ok m0 =>
        rw [load, hf] at h
        cases h
        rfl

/-- A small well-formed map document (used to witness C6). -/
def c6doc : String :=
  "\x7b\"tileSize\":16,\"mapWidth\":10,\"mapHeight\":10,\"layers\":[]\x7d"

/-- Witness for C6: a failed read propagates as the read error, and a
successful read of a well-formed document produces exactly the decoded
map. -/
theorem spec_C6_witness :
    load (.error "disk gone") = .error (.ioError "disk gone") ∧
    load (.ok c6doc.data) = .ok ⟨16, 10, 10, []⟩ := by
  constructor
  · exact (spec_C6 (.error "disk gone")).1 "disk gone" rfl
  · exact (spec_C6 (.ok c6doc.data)).2.2.1 c6doc.data ⟨16, 10, 10, []⟩ rfl rfl

/-! ## Claim C7: decoding well-formed input, defaults for absent fields

`mapJson` builds an arbitrary well-formed document matching the schema in
which every layer's `collider` field and every tile's `attributes` field
are absent (fields in the schema's order). -/

/-- Document of one tile without an `attributes` field. -/
def tileJson (i : String) (x y : Int) : Json :=
  .obj [("id", .str i), ("x", .num (.int x)), ("y", .num (.int y))]

/-- Document of one layer without a `collider` field. -/
def layerJson (nm : String) (tiles : List (String × Int × Int)) : Json :=
  .obj [("name", .str nm),
        ("tiles", .arr (tiles.map fun q => tileJson q.1 q.2.1 q.2.2))]

/-- Document of a whole map. -/
def mapJson (ts w h : Nat) (layers : List (String × List (String × Int × Int))) :
    Json :=
  .obj [("tileSize", .num (.int ts)), ("mapWidth", .num (.int w)),
        ("mapHeight", .num (.int h)),
        ("layers", .arr (layers.map fun p => layerJson p.1 p.2))]

/-- The tile such an input literally denotes (no attributes). -/
def tileOf (q : String × Int × Int) : SpriteFusionTile :=
  ⟨q.1, q.2.1, q.2.2, none⟩

/-- The layer such an input literally denotes (`collider` defaulted). -/
def layerOf (p : String × List (String × Int × Int)) : SpriteFusionLayer :=
  ⟨p.1, false, p.2.map tileOf⟩

lemma decodeU32_nat (n : Nat) (h : n < 4294967296) :
    decodeU32 (.num (.int n)) = .ok n := by
  simp only [decodeU32]
  rw [if_pos ⟨Int.natCast_nonneg n, by exact_mod_cast h⟩]
  simp

lemma decodeI32_int (x : Int) (h1 : -2147483648 ≤ x) (h2 : x < 2147483648) :
    decodeI32 (.num (.int x)) = .ok x := by
  simp [decodeI32, h1, h2]

lemma decodeListWith_map {α β : Type} (f : Json → Except String α) (enc : β → Json)
    (g : β → α) (l : List β) (h : ∀ p ∈ l, f (enc p) = .ok (g p)) :
    decodeListWith f (l.map enc) = .ok (l.map g) := by
  induction l with
  | nil => rfl
  | cons p ps ih =>
    simp only [List.map_cons, decodeListWith, h p (by simp)]
    rw [ih fun q hq => h q (by simp [hq])]

lemma tileFields_x (v : Json) (rest : List (String × Json)) (n : Int)
    (hv : decodeI32 v = .ok n) (id? : Option String) (y? : Option Int)
    (attrs? : Option (Option (List (String × Json)))) :
    decodeTileFields (("x", v) :: rest) id? none y? attrs? =
      decodeTileFields rest id? (some n) y? attrs? := by
  have e : decodeTileFields (("x", v) :: rest) id? none y? attrs? =
      (match decodeI32 v with
       | .error e => .error e
       | .ok m => decodeTileFields rest id? (some m) y? attrs?) := rfl
  rw [e, hv]

lemma tileFields_y (v : Json) (rest : List (String × Json)) (n : Int)
    (hv : decodeI32 v = .ok n) (id? : Option String) (x? : Option Int)
    (attrs? : Option (Option (List (String × Json)))) :
    decodeTileFields (("y", v) :: rest) id? x? none attrs? =
      decodeTileFields rest id? x? (some n) attrs? := by
  have e : decodeTileFields (("y", v) :: rest) id? x? none attrs? =
      (match decodeI32 v with
       | .error e => .error e
       | .ok m => decodeTileFields rest id? x? (some m) attrs?) := rfl
  rw [e, hv]

lemma decodeTile_tileJson (i : String) (x y : Int)
    (hx1 : -2147483648 ≤ x) (hx2 : x < 2147483648)
    (hy1 : -2147483648 ≤ y) (hy2 : y < 2147483648) :
    decodeTile (tileJson i x y) = .ok ⟨i, x, y, none⟩ := by
  calc decodeTile (tileJson i x y)
      = decodeTileFields [("x", .num (.int x)), ("y", .num (.int y))]
          (some i) none none none := rfl
    _ = decodeTileFields [("y", .num (.int y))] (some i) (some x) none none :=
        tileFields_x _ _ _ (decodeI32_int x hx1 hx2) _ _ _
    _ = decodeTileFields [] (some i) (some x) (some y) none :=
        tileFields_y _ _ _ (decodeI32_int y hy1 hy2) _ _ _
    _ = .ok ⟨i, x, y, none⟩ := rfl

lemma layerFields_tiles (v : Json) (rest : List (String × Json))
    (tsx : List SpriteFusionTile) (hv : decodeTiles v = .ok tsx)
    (name? : Option String) (collider? : Option Bool) :
    decodeLayerFields (("tiles", v) :: rest) name? collider? none =
      decodeLayerFields rest name? collider? (some tsx) := by
  have e : decodeLayerFields (("tiles", v) :: rest) name? collider? none =
      (match decodeTiles v with
       | .error e => .error e
       | .ok m => decodeLayerFields rest name? collider? (some m)) := rfl
  rw [e, hv]

lemma decodeLayer_layerJson (nm : String) (tiles : List (String × Int × Int))
    (h : ∀ q ∈ tiles, -2147483648 ≤ q.2.1 ∧ q.2.1 < 2147483648 ∧
      -2147483648 ≤ q.2.2 ∧ q.2.2 < 2147483648) :
    decodeLayer (layerJson nm tiles) = .ok ⟨nm, false, tiles.map tileOf⟩ := by
  have htiles : decodeTiles (.arr (tiles.map fun q => tileJson q.1 q.2.1 q.2.2)) =
      .ok (tiles.map tileOf) := by
    simp only [decodeTiles]
    exact decodeListWith_map decodeTile _ tileOf tiles fun q hq => by
      obtain ⟨h1, h2, h3, h4⟩ := h q hq
      exact decodeTile_tileJson q.1 q.2.1 q.2.2 h1 h2 h3 h4
  calc decodeLayer (layerJson nm tiles)
      = decodeLayerFields
          [("tiles", .arr (tiles.map fun q => tileJson q.1 q.2.1 q.2.2))]
          (some nm) none none := rfl
    _ = decodeLayerFields [] (some nm) none (some (tiles.map tileOf)) :=
        layerFields_tiles _ _ _ htiles _ _
    _ = .ok ⟨nm, false, tiles.map tileOf⟩ := rfl

lemma mapFields_tileSize (v : Json) (rest : List (String × Json)) (n : Nat)
    (hv : decodeU32 v = .ok n) (w? h? : Option Nat)
    (ls? : Option (List SpriteFusionLayer)) :
    decodeMapFields (("tileSize", v) :: rest) none w? h? ls? =
      decodeMapFields rest (some n) w? h? ls? := by
  have e : decodeMapFields (("tileSize", v) :: rest) none w? h? ls? =
      (match decodeU32 v with
       | .error e => .error e
       | .ok m => decodeMapFields rest (some m) w? h? ls?) := rfl
  rw [e, hv]

lemma mapFields_mapWidth (v : Json) (rest : List (String × Json)) (n : Nat)
    (hv : decodeU32 v = .ok n) (ts? h? : Option Nat)
    (ls? : Option (List SpriteFusionLayer)) :
    decodeMapFields (("mapWidth", v) :: rest) ts? none h? ls? =
      decodeMapFields rest ts? (some n) h? ls? := by
  have e : decodeMapFields (("mapWidth", v) :: rest) ts? none h? ls? =
      (match decodeU32 v with
       | .error e => .error e
       | .ok m => decodeMapFields rest ts? (some m) h? ls?) := rfl
  rw [e, hv]

lemma mapFields_mapHeight (v : Json) (rest : List (String × Json)) (n : Nat)
    (hv : decodeU32 v = .ok n) (ts? w? : Option Nat)
    (ls? : Option (List SpriteFusionLayer)) :
    decodeMapFields (("mapHeight", v) :: rest) ts? w? none ls? =
      decodeMapFields rest ts? w? (some n) ls? := by
  have e : decodeMapFields (("mapHeight", v) :: rest) ts? w? none ls? =
      (match decodeU32 v with
       | .error e => .error e
       | .ok m => decodeMapFields rest ts? w? (some m) ls?) := rfl
  rw [e, hv]

lemma mapFields_layers (v : Json) (rest : List (String × Json))
    (ls : List SpriteFusionLayer) (hv : decodeLayers v = .ok ls)
    (ts? w? h? : Option Nat) :
    decodeMapFields (("layers", v) :: rest) ts? w? h? none =
      decodeMapFields rest ts? w? h? (some ls) := by
  have e : decodeMapFields (("layers", v) :: rest) ts? w? h? none =
      (match decodeLayers v with
       | .error e => .error e
       | .ok m => decodeMapFields rest ts? w? h? (some m)) := rfl
  rw [e, hv]

/-- C7.  Every well-formed input matching the schema in which each layer's
`collider` field is absent and each tile's `attributes` field is absent
decodes successfully; the absent `collider` defaults to `false`, the
absent `attributes` default to none, and every other field equals the
literal input value. -/
theorem spec_C7 (ts w h : Nat)
    (layers : List (String × List (String × Int × Int)))
    (hts : ts < 4294967296) (hw : w < 4294967296) (hh : h < 4294967296)
    (hxy : ∀ p ∈ layers, ∀ q ∈ p.2,
      -2147483648 ≤ q.2.1 ∧ q.2.1 < 2147483648 ∧
      -2147483648 ≤ q.2.2 ∧ q.2.2 < 2147483648) :
    decodeMap (mapJson ts w h layers) = .ok ⟨ts, w, h, layers.map layerOf⟩ := by
  have hlayers : decodeLayers (.arr (layers.map fun p => layerJson p.1 p.2)) =
      .ok (layers.map layerOf) := by
    simp only [decodeLayers]
    exact decodeListWith_map decodeLayer _ layerOf layers fun p hp =>
      decodeLayer_layerJson p.1 p.2 (hxy p hp)
  calc decodeMap (mapJson ts w h layers)
      = decodeMapFields
          [("tileSize", .num (.int ts)), ("mapWidth", .num (.int w)),
           ("mapHeight", .num (.int h)),
           ("layers", .arr (layers.map fun p => layerJson p.1 p.2))]
          none none none none := rfl
    _ = decodeMapFields
          [("mapWidth", .num (.int w)), ("mapHeight", .num (.int h)),
           ("layers", .arr (layers.map fun p => layerJson p.1 p.2))]
          (some ts) none none none :=
        mapFields_tileSize _ _ _ (decodeU32_nat ts hts) _ _ _
    _ = decodeMapFields
          [("mapHeight", .num (.int h)),
           ("layers", .arr (layers.map fun p => layerJson p.1 p.2))]
          (some ts) (some w) none none :=
        mapFields_mapWidth _ _ _ (decodeU32_nat w hw) _ _ _
    _ = decodeMapFields
          [("layers", .arr (layers.map fun p => layerJson p.1 p.2))]
          (some ts) (some w) (some h) none :=
        mapFields_mapHeight _ _ _ (decodeU32_nat h hh) _ _ _
    _ = decodeMapFields [] (some ts) (some w) (some h)
          (some (layers.map layerOf)) :=
        mapFields_layers _ _ _ hlayers _ _ _
    _ = .ok ⟨ts, w, h, layers.map layerOf⟩ := rfl

/-- Witness for C7 at a concrete well-formed input without `collider` and
`attributes` fields. -/
theorem spec_C7_witness :
    decodeMap (mapJson 16 10 10 [("ground", [("7", 3, 4)])]) =
      .ok ⟨16, 10, 10, [⟨"ground", false, [⟨"7", 3, 4, none⟩]⟩]⟩ :=
  spec_C7 16 10 10 [("ground", [("7", 3, 4)])]
    (by norm_num) (by norm_num) (by norm_num) (by decide)

/-! ## Lemmas about the materialization pass -/

lemma tilePos_lt_of_inRange (m : SpriteFusionMap) (t : SpriteFusionTile)
    (hw : m.map_width < W32) (hh : m.map_height < W32) (ht : InRange m t) :
    (tilePos m t).x < m.map_width ∧ (tilePos m t).y < m.map_height := by
  obtain ⟨h1, h2, h3, h4⟩ := ht
  unfold tilePos i32_as_u32 u32_sub W32 at *
  constructor <;> simp only [] <;> omega

lemma TileStorage.set_some (st : TileStorage) (pos : TilePos) (e : Nat)
    (h : pos.y * st.width + pos.x < st.tiles.length) (hW : st.tiles.length ≤ W32) :
    st.set pos e =
      some { st with tiles := st.tiles.set (pos.y * st.width + pos.x) (some e) } := by
  unfold TileStorage.set
  rw [Nat.mod_eq_of_lt (by omega), if_pos h]

lemma spawnTiles_ok (m : SpriteFusionMap) (layerEntity : Nat) (collider : Bool) :
    ∀ (ts : List SpriteFusionTile) (st : TileStorage) (nid : Nat),
      st.width = m.map_width →
      st.tiles.length = m.map_width * m.map_height →
      m.map_width * m.map_height < W32 →
      (∀ t ∈ ts, InRange m t) →
      ∃ st2, spawnTiles m layerEntity collider ts st nid =
          some (st2, ts.map (mkTileRecord m layerEntity collider), nid + ts.length) ∧
        st2.width = st.width ∧ st2.tiles.length = st.tiles.length := by
  intro ts
  induction ts with
  | nil =>
    intro st nid h1 h3 h4 h5
    exact ⟨st, by simp [spawnTiles], rfl, rfl⟩
  | cons t ts ih =>
    intro st nid h1 h3 h4 h5
    have hin := h5 t (by simp)
    have hwpos : 1 ≤ m.map_width := by
      obtain ⟨a, b, _, _⟩ := hin; omega
    have hhpos : 1 ≤ m.map_height := by
      obtain ⟨_, _, a, b⟩ := hin; omega
    have hw : m.map_width < W32 := by
      have := Nat.le_mul_of_pos_right m.map_width (show 0 < m.map_height by omega)
      omega
    have hh : m.map_height < W32 := by
      have := Nat.le_mul_of_pos_left m.map_height (show 0 < m.map_width by omega)
      omega
    have hpos := tilePos_lt_of_inRange m t hw hh hin
    have hidx : (tilePos m t).y * st.width + (tilePos m t).x < st.tiles.length := by
      rw [h1, h3]
      calc (tilePos m t).y * m.map_width + (tilePos m t).x <
            (tilePos m t).y * m.map_width + m.map_width := by omega
        _ = ((tilePos m t).y + 1) * m.map_width := by ring
        _ ≤ m.map_height * m.map_width := Nat.mul_le_mul_right _ (by omega)
        _ = m.map_width * m.map_height := Nat.mul_comm _ _
    have hset := TileStorage.set_some st (tilePos m t) nid hidx (by omega)
    obtain ⟨st2, hrec, e1, e2⟩ :=
      ih ({ st with tiles := st.tiles.set ((tilePos m t).y * st.width + (tilePos m t).x) (some nid) })
        (nid + 1) h1 (by simpa using h3) h4 (fun u hu => h5 u (by simp [hu]))
    refine ⟨st2, ?_, by simpa using e1, by simpa using e2⟩
    have hstep : spawnTiles m layerEntity collider (t :: ts) st nid =
        (match st.set (tilePos m t) nid with
         | none => none
         | some stx =>
           match spawnTiles m layerEntity collider ts stx (nid + 1) with
           | none => none
           | some p => some (p.1, mkTileRecord m layerEntity collider t :: p.2.1, p.2.2)) := rfl
    rw [hstep]
    simp only [hset, hrec, List.map_cons, List.length_cons]
    have harith : nid + 1 + ts.length = nid + (ts.length + 1) := by omega
    rw [harith]

lemma spawnAllLayers_ok (m : SpriteFusionMap)
    (hW : m.map_width * m.map_height < W32) :
    ∀ (ls : List SpriteFusionLayer) (idx nid : Nat),
      (∀ layer ∈ ls, ∀ t ∈ layer.tiles, InRange m t) →
      ∃ p, spawnAllLayers m ls idx nid = some p := by
  intro ls
  induction ls with
  | nil => intro idx nid _; exact ⟨_, rfl⟩
  | cons layer rest ih =>
    intro idx nid h
    have hemp1 : (TileStorage.empty m.map_width m.map_height).tiles.length =
        m.map_width * m.map_height := by
      simp [TileStorage.empty, Nat.mod_eq_of_lt hW]
    obtain ⟨st2, hst, _, _⟩ := spawnTiles_ok m nid layer.collider layer.tiles
      (TileStorage.empty m.map_width m.map_height) (nid + 1) rfl hemp1 hW
      (h layer (by simp))
    obtain ⟨q, hq⟩ := ih (idx + 1) (nid + 1 + layer.tiles.length)
      (fun l hl => h l (by simp [hl]))
    refine ⟨({ entity := nid
               marker := { name := layer.name, index := idx
                           collider := layer.collider }
               storage := st2
               tiles := layer.tiles.map (mkTileRecord m nid layer.collider) } :: q.1,
             q.2), ?_⟩
    have hlayer : spawnLayer m idx layer nid =
        some ({ entity := nid
                marker := { name := layer.name, index := idx
                            collider := layer.collider }
                storage := st2
                tiles := layer.tiles.map (mkTileRecord m nid layer.collider) },
              nid + 1 + layer.tiles.length) := by
      have e : spawnLayer m idx layer nid =
          (match spawnTiles m nid layer.collider layer.tiles
              (TileStorage.empty m.map_width m.map_height) (nid + 1) with
           | none => none
           | some p =>
             some ({ entity := nid
                     marker := { name := layer.name, index := idx
                                 collider := layer.collider }
                     storage := p.1
                     tiles := p.2.1 }, p.2.2)) := rfl
      rw [e]
      simp only [hst]
    have hstep : spawnAllLayers m (layer :: rest) idx nid =
        (match spawnLayer m idx layer nid with
         | none => none
         | some p =>
           match spawnAllLayers m rest (idx + 1) p.2 with
           | none => none
           | some q => some (p.1 :: q.1, q.2)) := rfl
    rw [hstep]
    simp only [hlayer, hq]

lemma spawnMap_isSome (m : SpriteFusionMap) (h : WfMap m) (nid : Nat) :
    ∃ p, spawnMap m nid = some p :=
  spawnAllLayers_ok m h.1 m.layers 0 nid h.2

/-! ## Claim C2: materialization of out-of-range tiles -/

/-- A decoded map with one tile at `y = -1`, outside `[0, height)`. -/
def c2badMap : SpriteFusionMap := ⟨16, 10, 10, [⟨"a", false, [⟨"0", 0, -1, none⟩]⟩]⟩

/-- The document `c2badMap` decodes from. -/
def c2doc : String :=
  "\x7b\"tileSize\":16,\"mapWidth\":10,\"mapHeight\":10,\"layers\":[\x7b\"name\":\"a\",\"tiles\":[\x7b\"id\":\"0\",\"x\":0,\"y\":-1\x7d]\x7d]\x7d"

/-- A pending request entity. -/
def c2root : RootEntity Nat Nat Nat Nat := ⟨true, none, 0, 0, 0, 0, []⟩

/-- A well-formed decoded map (all tiles in range). -/
def c2goodMap : SpriteFusionMap := ⟨16, 2, 2, [⟨"a", false, [⟨"1", 1, 1, none⟩]⟩]⟩

set_option maxRecDepth 10000 in
/-- Counterexample to C2 as stated: the map with a tile at `y = -1`
(height 10) is a decoded map (its document is shown decoding to it), the
`as u32` cast and the wrapping `u32` subtraction resolve the tile to row
`10`, and the materialization pass then fails — the storage insertion
index `10 * width` lies outside the `width * height`-sized tile storage
(an out-of-bounds write, i.e. a panic) — instead of completing with the
tile placed outside the visible grid. -/
theorem spec_C2_counterexample :
    from_slice c2doc.data = .ok c2badMap ∧
    tilePos c2badMap ⟨"0", 0, -1, none⟩ = ⟨0, 10⟩ ∧
    spawn_spritefusion_maps c2root (some c2badMap) true 0 = none :=
  ⟨rfl, rfl, rfl⟩

/-- C2, amended.  For every decoded map whose tile coordinates all lie in
`[0, width) × [0, height)` (and whose `width * height` fits the `u32`
index arithmetic of the tile storage), a scheduling tick never fails: it
either waits or materializes.  A tile outside that range is not merely
placed outside the visible grid: it drives the storage insertion out of
bounds and the pass panics (see the counterexample). -/
theorem spec_C2 (root : RootEntity T HM HT V) (mapAsset : Option SpriteFusionMap)
    (imageLoaded : Bool) (nid : Nat)
    (hwf : ∀ m, mapAsset = some m → WfMap m) :
    (spawn_spritefusion_maps root mapAsset imageLoaded nid).isSome = true := by
  by_cases hp : root.pending = false
  · simp [spawn_spritefusion_maps, hp]
  · cases mapAsset with
    | none => simp [spawn_spritefusion_maps, hp]
    | some m =>
      by_cases hi : imageLoaded = false
      · simp [spawn_spritefusion_maps, hp, hi]
      · obtain ⟨p, hp2⟩ := spawnMap_isSome m (hwf m rfl) nid
        simp [spawn_spritefusion_maps, hp, hi, hp2]

/-- Witness for C2 (amended) at a concrete in-range map: the tick
succeeds. -/
theorem spec_C2_witness :
    (spawn_spritefusion_maps c2root (some c2goodMap) true 0).isSome = true :=
  spec_C2 c2root (some c2goodMap) true 0
    (fun m hm => by cases hm; decide)

/-! ## Claim C4: gating and single materialization -/

/-- C4.  For a pending request: with the map asset unresolved or the image
unresolved, a tick changes nothing and emits nothing; with both resolved,
one tick removes the pending flag, installs the materialized marker
holding the decoded map, appends the layer containers as children and
emits the spawned hierarchy; a request without the pending flag (in
particular one already materialized) is not reconsidered — every further
tick changes nothing and emits nothing. -/
theorem spec_C4 (root : RootEntity T HM HT V) (m : SpriteFusionMap) (nid : Nat) :
    (root.pending = true →
      (∀ img, spawn_spritefusion_maps root none img nid = some (root, [])) ∧
      spawn_spritefusion_maps root (some m) false nid = some (root, []) ∧
      (∀ spawns nid2, spawnMap m nid = some (spawns, nid2) →
        spawn_spritefusion_maps root (some m) true nid =
          some ({ root with
                    pending := false
                    marker := some m
                    children := root.children ++ spawns.map fun ls => ls.entity },
                spawns))) ∧
    (root.pending = false →
      ∀ ma img, spawn_spritefusion_maps root ma img nid = some (root, [])) := by
  constructor
  · intro hp
    have hp2 : ¬root.pending = false := by simp [hp]
    refine ⟨?_, ?_, ?_⟩
    · intro img
      simp [spawn_spritefusion_maps, hp2]
    · simp [spawn_spritefusion_maps, hp2]
    · intro spawns nid2 hs
      simp [spawn_spritefusion_maps, hp2, hs]
  · intro hp ma img
    simp [spawn_spritefusion_maps, hp]

/-- Concrete 2×2 map with one background tile (for the C4 witness). -/
def c4map : SpriteFusionMap := ⟨16, 2, 2, [⟨"bg", false, [⟨"3", 0, 0, none⟩]⟩]⟩

/-- A pending request entity (for the C4 witness). -/
def c4root : RootEntity Nat Nat Nat Nat := ⟨true, none, 5, 6, 7, 8, []⟩

/-- What materializing `c4map` spawns: layer container 0 with the single
tile at resolved row `(2 - 1) - 0 = 1`. -/
def c4spawn : LayerSpawn :=
  ⟨0, ⟨"bg", 0, false⟩, ⟨2, 2, [none, none, some 1, none]⟩,
    [⟨⟨0, 1⟩, 0, 3, false, none⟩]⟩

/-- Witness for C4: while an asset is unresolved the request is unchanged
and nothing is emitted; once both resolve, one tick materializes and emits
the hierarchy; the follow-up tick on the materialized request emits
nothing further. -/
theorem spec_C4_witness :
    spawn_spritefusion_maps c4root none true 0 = some (c4root, []) ∧
    spawn_spritefusion_maps c4root (some c4map) false 0 = some (c4root, []) ∧
    spawn_spritefusion_maps c4root (some c4map) true 0 =
      some ({ c4root with
                pending := false
                marker := some c4map
                children := [0] }, [c4spawn]) ∧
    spawn_spritefusion_maps
        ({ c4root with
             pending := false
             marker := some c4map
             children := [0] }) (some c4map) true 2 =
      some ({ c4root with
                pending := false
                marker := some c4map
                children := [0] }, []) := by
  have h := spec_C4 c4root c4map 0
  refine ⟨(h.1 rfl).1 true, (h.1 rfl).2.1, ?_, ?_⟩
  · exact (h.1 rfl).2.2 [c4spawn] 2 rfl
  · exact (spec_C4 ({ c4root with
      pending := false
      marker := some c4map
      children := [0] }) c4map 2).2 rfl (some c4map) true

/-! ## Claim C9: collider propagation -/

lemma spawnTiles_shape (m : SpriteFusionMap) (layerEntity : Nat) (collider : Bool) :
    ∀ (ts : List SpriteFusionTile) (st : TileStorage) (nid : Nat)
      (st2 : TileStorage) (recs : List TileRecord) (nid2 : Nat),
      spawnTiles m layerEntity collider ts st nid = some (st2, recs, nid2) →
      recs = ts.map (mkTileRecord m layerEntity collider) := by
  intro ts
  induction ts with
  | nil =>
    intro st nid st2 recs nid2 h
    simp only [spawnTiles, Option.some.injEq, Prod.mk.injEq] at h
    exact h.2.1.symm
  | cons t ts ih =>
    intro st nid st2 recs nid2 h
    have hstep : spawnTiles m layerEntity collider (t :: ts) st nid =
        (match st.set (tilePos m t) nid with
         | none => none
         | some stx =>
           match spawnTiles m layerEntity collider ts stx (nid + 1) with
           | none => none
           | some p => some (p.1, mkTileRecord m layerEntity collider t :: p.2.1, p.2.2)) := rfl
    rw [hstep] at h
    cases hset : st.set (tilePos m t) nid with
    | none =>
      simp only [hset] at h
      exact Option.noConfusion h
    | some stx =>
      simp only [hset] at h
      cases hrec : spawnTiles m layerEntity collider ts stx (nid + 1) with
      | none =>
        simp only [hrec] at h
        exact Option.noConfusion h
      | some p =>
        simp only [hrec, Option.some.injEq, Prod.mk.injEq] at h
        rw [← h.2.1, List.map_cons,
          ih stx (nid + 1) p.1 p.2.1 p.2.2 (by rw [hrec])]

/-- C9.  Whenever a layer materializes, it emits exactly one tile record
per source tile, and each record carries the `Collider` tag exactly when
the layer's collider flag is set: a `collider = true` layer with 3 tiles
yields 3 tagged records, and a layer with the flag `false` (in particular
one whose `collider` field was absent and defaulted) yields records with
no tag. -/
theorem spec_C9 (m : SpriteFusionMap) (layerIndex : Nat)
    (layer : SpriteFusionLayer) (nid : Nat) (ls : LayerSpawn) (nid2 : Nat)
    (h : spawnLayer m layerIndex layer nid = some (ls, nid2)) :
    ls.tiles.length = layer.tiles.length ∧
    ls.marker.collider = layer.collider ∧
    ∀ r ∈ ls.tiles, r.colliderTag = layer.collider := by
  have e : spawnLayer m layerIndex layer nid =
      (match spawnTiles m nid layer.collider layer.tiles
          (TileStorage.empty m.map_width m.map_height) (nid + 1) with
       | none => none
       | some p =>
         some ({ entity := nid
                 marker := { name := layer.name, index := layerIndex
                             collider := layer.collider }
                 storage := p.1
                 tiles := p.2.1 }, p.2.2)) := rfl
  rw [e] at h
  cases hst : spawnTiles m nid layer.collider layer.tiles
      (TileStorage.empty m.map_width m.map_height) (nid + 1) with
  | none =>
    simp only [hst] at h
    exact Option.noConfusion h
  | some p =>
    simp only [hst, Option.some.injEq, Prod.mk.injEq] at h
    have hls : ls = { entity := nid
                      marker := { name := layer.name, index := layerIndex
                                  collider := layer.collider }
                      storage := p.1
                      tiles := p.2.1 } := h.1.symm
    have hshape := spawnTiles_shape m nid layer.collider layer.tiles
      (TileStorage.empty m.map_width m.map_height) (nid + 1) p.1 p.2.1 p.2.2
      (by rw [hst])
    subst hls
    refine ⟨?_, rfl, ?_⟩
    · simp [hshape]
    · intro r hr
      rw [show ({ entity := nid
                  marker := { name := layer.name, index := layerIndex
                              collider := layer.collider }
                  storage := p.1
                  tiles := p.2.1 } : LayerSpawn).tiles = p.2.1 from rfl,
        hshape] at hr
      obtain ⟨t, _, rfl⟩ := List.mem_map.mp hr
      rfl

/-- 3×1 map for the C9 witness. -/
def c9map : SpriteFusionMap :=
  ⟨16, 3, 1, [⟨"walls", true, [⟨"1", 0, 0, none⟩, ⟨"2", 1, 0, none⟩,
    ⟨"3", 2, 0, none⟩]⟩]⟩

/-- A collider layer with 3 tiles. -/
def c9layer : SpriteFusionLayer :=
  ⟨"walls", true, [⟨"1", 0, 0, none⟩, ⟨"2", 1, 0, none⟩, ⟨"3", 2, 0, none⟩]⟩

/-- A non-collider layer with 1 tile. -/
def c9layerF : SpriteFusionLayer := ⟨"deco", false, [⟨"1", 0, 0, none⟩]⟩

/-- Witness for C9: the 3-tile collider layer emits exactly 3 records, all
tagged; the non-collider layer's records carry no tag. -/
theorem spec_C9_witness :
    (∃ ls : LayerSpawn, ∃ nid2 : Nat,
      spawnLayer c9map 0 c9layer 0 = some (ls, nid2) ∧
      ls.tiles.length = 3 ∧ ∀ r ∈ ls.tiles, r.colliderTag = true) ∧
    (∃ ls : LayerSpawn, ∃ nid2 : Nat,
      spawnLayer c9map 0 c9layerF 0 = some (ls, nid2) ∧
      ∀ r ∈ ls.tiles, r.colliderTag = false) := by
  constructor
  · obtain ⟨p, hp⟩ : ∃ p, spawnLayer c9map 0 c9layer 0 = some p := ⟨_, rfl⟩
    obtain ⟨h1, _, h3⟩ := spec_C9 c9map 0 c9layer 0 p.1 p.2 (by rw [hp])
    exact ⟨p.1, p.2, by rw [hp], h1, h3⟩
  · obtain ⟨p, hp⟩ : ∃ p, spawnLayer c9map 0 c9layerF 0 = some p := ⟨_, rfl⟩
    obtain ⟨_, _, h3⟩ := spec_C9 c9map 0 c9layerF 0 p.1 p.2 (by rw [hp])
    exact ⟨p.1, p.2, by rw [hp], h3⟩

/-! ## Claim C10: the frame effect on the root request entity -/

/-- C10.  When a pending request with both assets resolved materializes,
the root entity changes only as follows: the pending marker is removed,
the materialized marker holding the decoded map is inserted, and the new
layer containers are appended to its children; its transform, its two
asset handles and its visibility are untouched (the first conjunct gives
the exact resulting entity; the rest spell out each component). -/
theorem spec_C10 (root : RootEntity T HM HT V) (m : SpriteFusionMap)
    (nid : Nat) (spawns : List LayerSpawn) (nid2 : Nat)
    (hp : root.pending = true) (hs : spawnMap m nid = some (spawns, nid2)) :
    spawn_spritefusion_maps root (some m) true nid =
      some ({ root with
                pending := false
                marker := some m
                children := root.children ++ spawns.map fun ls => ls.entity },
            spawns) ∧
    ∀ root2 : RootEntity T HM HT V,
      root2 = { root with
                  pending := false
                  marker := some m
                  children := root.children ++ spawns.map fun ls => ls.entity } →
      root2.pending = false ∧ root2.marker = some m ∧
      root2.children = root.children ++ spawns.map (fun ls => ls.entity) ∧
      root2.transform = root.transform ∧ root2.mapHandle = root.mapHandle ∧
      root2.tilesetHandle = root.tilesetHandle ∧
      root2.visibility = root.visibility := by
  constructor
  · have hp2 : ¬root.pending = false := by simp [hp]
    simp [spawn_spritefusion_maps, hp2, hs]
  · rintro root2 rfl
    exact ⟨rfl, rfl, rfl, rfl, rfl, rfl, rfl⟩

/-- 2×2 map for the C10 witness. -/
def c10map : SpriteFusionMap := ⟨8, 2, 2, [⟨"bg", false, [⟨"2", 1, 0, none⟩]⟩]⟩

/-- A pending request entity with distinguishable components. -/
def c10root : RootEntity Nat Nat Nat Nat := ⟨true, none, 11, 12, 13, 14, [99]⟩

/-- What materializing `c10map` spawns. -/
def c10spawn : LayerSpawn :=
  ⟨0, ⟨"bg", 0, false⟩, ⟨2, 2, [none, none, none, some 1]⟩,
    [⟨⟨1, 1⟩, 0, 2, false, none⟩]⟩

/-- Witness for C10: the tick leaves transform `11`, handles `12`/`13` and
visibility `14` unchanged, removes the pending flag, installs the marker
and appends the layer container `0` to the children. -/
theorem spec_C10_witness :
    spawn_spritefusion_maps c10root (some c10map) true 0 =
      some ({ c10root with
                pending := false
                marker := some c10map
                children := [99, 0] }, [c10spawn]) ∧
    ({ c10root with
         pending := false
         marker := some c10map
         children := [99, 0] } : RootEntity Nat Nat Nat Nat).transform =
      c10root.transform := by
  have h := spec_C10 c10root c10map 0 [c10spawn] 2 rfl rfl
  exact ⟨h.1, (h.2 _ rfl).2.2.2.1⟩

end SpriteFusion
